import Mathlib

/-
Verification of the mycelium control-plane surface shown in this repository.

Shallow embedding of:
  - src/src/packet.rs          (ControlPacket constructors)
  - src/src/api.rs             (HTTP API handlers and serialization)
  - src/mycelium-ui/src/main.rs (PeerTypeWrapper ordering)

Code of the repository that is only referenced from these files (the babel
TLV codec, the Peer type, the MessageStack) is modelled from the spec; each
such definition carries a doc comment starting with "Modelled from the spec:".
Machine integers are modelled as Nat with explicit % 2 ^ w where overflow
matters; bytes are Nat values, byte strings are List Nat.
-/

/-! ## Basic wire primitives (Modelled from the spec, §4.1) -/

/-- Modelled from the spec: an IP address as carried in control messages and
API calls; either 4 or 16 raw bytes (std::net::IpAddr is outside src/). -/
inductive IpAddr
  | v4 (bytes : List Nat)
  | v6 (bytes : List Nat)
  deriving DecidableEq

/-- Modelled from the spec: crypto::PublicKey (not under src/); an overlay
identity, carried on the wire as its raw bytes. -/
structure PublicKey where
  bytes : List Nat
  deriving DecidableEq

/-- Modelled from the spec: the overlay address derived from a public key
(crypto::PublicKey::address is not under src/; per the spec glossary the
identity is "mapped to an address in the overlay subnet", a deterministic
function of the key). -/
def PublicKey.address (pk : PublicKey) : List Nat := pk.bytes.take 16

/-- Modelled from the spec: a Subnet is an address prefix, an IP plus a
prefix length (§3). -/
structure Subnet where
  ip : List Nat
  plen : Nat
  deriving DecidableEq

/-- Modelled from the spec: Hello carries a nonce/sequence field and an
interval (§4.1). -/
structure Hello where
  seqno : Nat
  interval : Nat
  deriving DecidableEq

/-- Modelled from the spec: IHU carries a peer-observed metric, an interval,
and an optional address (§4.1). -/
structure Ihu where
  metric : Nat
  interval : Nat
  address : Option IpAddr
  deriving DecidableEq

/-- Modelled from the spec: Update carries interval, sequence number, metric,
subnet, and originator identity (§4.1). -/
structure Update where
  interval : Nat
  seqno : Nat
  metric : Nat
  subnet : Subnet
  router_id : PublicKey
  deriving DecidableEq

/-- Modelled from the spec: babel::Tlv, the tagged union of control messages,
with an explicit unknown-tag catch-all for forward compatibility (§4.1, §9). -/
inductive Tlv
  | hello (h : Hello)
  | ihu (i : Ihu)
  | update (u : Update)
  | unknown (tag : Nat) (body : List Nat)
  deriving DecidableEq

/-- Modelled from the spec: the codec's decode error; malformed or incomplete
wire data yields Truncated (§4.1, §7). -/
inductive DecodeError
  | Truncated
  deriving DecidableEq

/-- Big-endian encoding of a 16-bit field as two bytes. -/
def enc16 (n : Nat) : List Nat := [n / 256 % 256, n % 256]

/-- Read a big-endian 16-bit field off the front of a buffer. -/
def dec16 : List Nat → Option (Nat × List Nat)
  | b0 :: b1 :: rest => some (b0 * 256 + b1, rest)
  | _ => none

/-- Split off exactly n bytes, failing when the buffer is shorter. -/
def takeExact : Nat → List Nat → Option (List Nat × List Nat)
  | 0, l => some ([], l)
  | _ + 1, [] => none
  | n + 1, x :: xs => (takeExact n xs).map (fun p => (x :: p.1, p.2))

/-- Encoding of the optional IHU address: a presence/family byte followed by
the raw address bytes. -/
def encAddr : Option IpAddr → List Nat
  | none => [0]
  | some (.v4 bs) => 1 :: bs
  | some (.v6 bs) => 2 :: bs

/-- Decoding of the optional IHU address; consumes the whole remaining body. -/
def decAddr (l : List Nat) : Option (Option IpAddr) :=
  match l with
  | [] => none
  | t :: bs =>
    if t = 0 then (if bs = [] then some none else none)
    else if t = 1 then (if bs.length = 4 then some (some (.v4 bs)) else none)
    else if t = 2 then (if bs.length = 16 then some (some (.v6 bs)) else none)
    else none

/-- Body layout of a Hello message. -/
def Hello.encodeBody (h : Hello) : List Nat := enc16 h.seqno ++ enc16 h.interval

/-- Body layout of an IHU message. -/
def Ihu.encodeBody (i : Ihu) : List Nat :=
  enc16 i.metric ++ (enc16 i.interval ++ encAddr i.address)

/-- Body layout of an Update message. -/
def Update.encodeBody (u : Update) : List Nat :=
  enc16 u.interval ++
    (enc16 u.seqno ++
      (enc16 u.metric ++ (u.subnet.ip ++ (u.subnet.plen % 256 :: u.router_id.bytes))))

/-- The 1-byte type tag of a TLV (§4.1; exact values are an implementation
choice per §6). -/
def tlvTag : Tlv → Nat
  | .hello _ => 1
  | .ihu _ => 2
  | .update _ => 3
  | .unknown t _ => t % 256

/-- The type-specific body of a TLV. -/
def tlvBody : Tlv → List Nat
  | .hello h => h.encodeBody
  | .ihu i => i.encodeBody
  | .update u => u.encodeBody
  | .unknown _ b => b

/-- Modelled from the spec: encode(message) -> bytes; a 1-byte type tag, a
1-byte length, and the type-specific body (§4.1). -/
def encode (t : Tlv) : List Nat := tlvTag t :: (tlvBody t).length % 256 :: tlvBody t

/-- Decode a Hello body. -/
def decodeHello (body : List Nat) : Except DecodeError Tlv :=
  match dec16 body with
  | none => .error .Truncated
  | some (seqno, r1) =>
    match dec16 r1 with
    | none => .error .Truncated
    | some (interval, r2) =>
      if r2 = [] then .ok (.hello ⟨seqno, interval⟩) else .error .Truncated

/-- Decode an IHU body. -/
def decodeIhu (body : List Nat) : Except DecodeError Tlv :=
  match dec16 body with
  | none => .error .Truncated
  | some (metric, r1) =>
    match dec16 r1 with
    | none => .error .Truncated
    | some (interval, r2) =>
      match decAddr r2 with
      | none => .error .Truncated
      | some a => .ok (.ihu ⟨metric, interval, a⟩)

/-- Decode an Update body. -/
def decodeUpdate (body : List Nat) : Except DecodeError Tlv :=
  match dec16 body with
  | none => .error .Truncated
  | some (interval, r1) =>
    match dec16 r1 with
    | none => .error .Truncated
    | some (seqno, r2) =>
      match dec16 r2 with
      | none => .error .Truncated
      | some (metric, r3) =>
        match takeExact 16 r3 with
        | none => .error .Truncated
        | some (ipBytes, r4) =>
          match r4 with
          | [] => .error .Truncated
          | plen :: r5 =>
            match takeExact 32 r5 with
            | none => .error .Truncated
            | some (pkBytes, r6) =>
              if r6 = [] then .ok (.update ⟨interval, seqno, metric, ⟨ipBytes, plen⟩, ⟨pkBytes⟩⟩)
              else .error .Truncated

/-- Modelled from the spec: decode(bytes) -> message | DecodeError; reads one
TLV off the front of the buffer, dispatching on the type tag, with unknown
tags decoding to an opaque skip record, and declared lengths exceeding the
remaining buffer yielding Truncated (§4.1). -/
def decode (b : List Nat) : Except DecodeError Tlv :=
  match b with
  | tag :: len :: rest =>
    match takeExact len rest with
    | none => .error .Truncated
    | some (body, _) =>
      if tag = 1 then decodeHello body
      else if tag = 2 then decodeIhu body
      else if tag = 3 then decodeUpdate body
      else .ok (.unknown tag body)
  | _ => .error .Truncated

/-- Well-formedness of an optional address: the byte list has the length of
its address family. -/
def addrOk : Option IpAddr → Bool
  | none => true
  | some (.v4 bs) => bs.length == 4
  | some (.v6 bs) => bs.length == 16

/-- A constructible control message: a Hello, IHU or Update whose fields fit
their wire representation. -/
def Tlv.constructible : Tlv → Bool
  | .hello h => decide (h.seqno < 65536) && decide (h.interval < 65536)
  | .ihu i => decide (i.metric < 65536) && decide (i.interval < 65536) && addrOk i.address
  | .update u =>
    decide (u.interval < 65536) && decide (u.seqno < 65536) && decide (u.metric < 65536) &&
      (u.subnet.ip.length == 16) && decide (u.subnet.plen < 256) &&
      (u.router_id.bytes.length == 32)
  | .unknown _ _ => false

theorem takeExact_append (l rest : List Nat) : takeExact l.length (l ++ rest) = some (l, rest) := by
  induction l with
  | nil => rfl
  | cons x xs ih => simp [takeExact, ih]

theorem takeExact_self (l : List Nat) : takeExact l.length l = some (l, []) := by
  simpa using takeExact_append l []

theorem dec16_enc16 (n : Nat) (rest : List Nat) (h : n < 65536) :
    dec16 (enc16 n ++ rest) = some (n, rest) := by
  simp only [enc16, List.cons_append, List.nil_append, dec16]
  have h1 : n / 256 < 256 := by omega
  rw [Nat.mod_eq_of_lt h1]
  congr 1
  congr 1
  omega

theorem dec16_enc16_nil (n : Nat) (h : n < 65536) : dec16 (enc16 n) = some (n, []) := by
  simpa using dec16_enc16 n [] h

theorem decAddr_encAddr (a : Option IpAddr) (h : addrOk a = true) :
    decAddr (encAddr a) = some a := by
  match a with
  | none => rfl
  | some (.v4 bs) =>
    simp only [addrOk, beq_iff_eq] at h
    simp [encAddr, decAddr, h]
  | some (.v6 bs) =>
    simp only [addrOk, beq_iff_eq] at h
    simp [encAddr, decAddr, h]

theorem decode_encode_body (tag : Nat) (body : List Nat) (hb : body.length < 256) :
    decode (tag :: body.length % 256 :: body) =
      if tag = 1 then decodeHello body
      else if tag = 2 then decodeIhu body
      else if tag = 3 then decodeUpdate body
      else .ok (.unknown tag body) := by
  have h1 : body.length % 256 = body.length := Nat.mod_eq_of_lt hb
  simp [decode, h1, takeExact_self]

/-- C1: for every constructible control message m (Hello, IHU, Update),
decoding the bytes produced by encoding m yields a message identical to m
(encode/decode round-trip law). -/
theorem C1_codec_roundtrip (t : Tlv) (h : t.constructible = true) : decode (encode t) = .ok t := by
  cases t with
  | hello hl =>
    simp only [Tlv.constructible, Bool.and_eq_true, decide_eq_true_eq] at h
    obtain ⟨hs, hi⟩ := h
    have hb : (tlvBody (.hello hl)).length = 4 := by
      simp [tlvBody, Hello.encodeBody, enc16]
    rw [encode]
    rw [decode_encode_body _ _ (by omega)]
    simp only [tlvTag, if_pos rfl, tlvBody, Hello.encodeBody]
    simp [decodeHello, dec16_enc16 hl.seqno (enc16 hl.interval) hs, dec16_enc16_nil hl.interval hi]
  | ihu ih =>
    simp only [Tlv.constructible, Bool.and_eq_true, decide_eq_true_eq] at h
    obtain ⟨⟨hm, hi⟩, ha⟩ := h
    have hab : (encAddr ih.address).length ≤ 17 := by
      match hx : ih.address with
      | none => simp [encAddr]
      | some (.v4 bs) =>
        rw [hx] at ha; simp only [addrOk, beq_iff_eq] at ha; simp [encAddr, ha]
      | some (.v6 bs) =>
        rw [hx] at ha; simp only [addrOk, beq_iff_eq] at ha; simp [encAddr, ha]
    have hb : (tlvBody (.ihu ih)).length < 256 := by
      simp only [tlvBody, Ihu.encodeBody, List.length_append, enc16, List.length_cons,
        List.length_nil]
      omega
    rw [encode]
    rw [decode_encode_body _ _ hb]
    simp only [tlvTag]
    norm_num
    simp only [tlvBody, Ihu.encodeBody]
    simp [decodeIhu, dec16_enc16 ih.metric _ hm, dec16_enc16 ih.interval _ hi,
      decAddr_encAddr ih.address ha]
  | update u =>
    simp only [Tlv.constructible, Bool.and_eq_true, decide_eq_true_eq, beq_iff_eq] at h
    obtain ⟨⟨⟨⟨⟨hi, hs⟩, hm⟩, hip⟩, hp⟩, hpk⟩ := h
    have hb : (tlvBody (.update u)).length < 256 := by
      simp only [tlvBody, Update.encodeBody, List.length_append, enc16, List.length_cons,
        List.length_nil, hip, hpk]
      omega
    rw [encode]
    rw [decode_encode_body _ _ hb]
    simp only [tlvTag]
    norm_num
    simp only [tlvBody, Update.encodeBody]
    rw [Nat.mod_eq_of_lt hp]
    have h16 : takeExact 16 (u.subnet.ip ++ (u.subnet.plen :: u.router_id.bytes)) =
        some (u.subnet.ip, u.subnet.plen :: u.router_id.bytes) := by
      rw [← hip]; exact takeExact_append _ _
    have h32 : takeExact 32 u.router_id.bytes = some (u.router_id.bytes, []) := by
      rw [← hpk]; exact takeExact_self _
    simp [decodeUpdate, dec16_enc16 u.interval _ hi, dec16_enc16 u.seqno _ hs,
      dec16_enc16 u.metric _ hm, h16, h32]
  | unknown tag body => simp [Tlv.constructible] at h

/-- Witness for C1: concrete round-trips for a Hello, an IHU with an address,
and an Update. -/
theorem C1_codec_roundtrip_witness :
    decode (encode (.hello ⟨5, 4⟩)) = .ok (.hello ⟨5, 4⟩) ∧
    decode (encode (.ihu ⟨9, 4, some (.v6 [0, 0, 0, 0, 0, 0, 0, 0, 0, 0, 0, 0, 0, 0, 0, 1])⟩)) =
      .ok (.ihu ⟨9, 4, some (.v6 [0, 0, 0, 0, 0, 0, 0, 0, 0, 0, 0, 0, 0, 0, 0, 1])⟩) ∧
    decode (encode (.update ⟨4, 7, 25, ⟨List.replicate 16 2, 64⟩, ⟨List.replicate 32 3⟩⟩)) =
      .ok (.update ⟨4, 7, 25, ⟨List.replicate 16 2, 64⟩, ⟨List.replicate 32 3⟩⟩) :=
  ⟨C1_codec_roundtrip _ (by decide), C1_codec_roundtrip _ (by decide),
    C1_codec_roundtrip _ (by decide)⟩

/-! ## src/src/packet.rs: ControlPacket constructors -/

/-- Modelled from the spec: the per-peer state read by new_hello (peer.rs is
not under src/); the Hello sequence counter is a 16-bit SequenceNumber (§3). -/
structure Peer where
  hello_seqno : Nat
  deriving DecidableEq

/-- Modelled from the spec: Peer::increment_hello_seqno (peer.rs is not under
src/); the counter is bumped once, wrapping per 16-bit SequenceNumber rules
(§3, §4.2). -/
def Peer.increment_hello_seqno (p : Peer) : Peer := ⟨(p.hello_seqno + 1) % 65536⟩

/-- Modelled from the spec: babel::Hello::new_unicast (not under src/);
constructs a Hello carrying the given sequence number and interval (§4.1). -/
def Hello.new_unicast (seqno interval : Nat) : Hello := ⟨seqno, interval⟩

/-- Modelled from the spec: babel::Ihu::new (not under src/); constructs an
IHU carrying the given metric, interval and optional address (§4.1). -/
def Ihu.new (metric : Nat) (interval : Nat) (address : Option IpAddr) : Ihu :=
  ⟨metric, interval, address⟩

/-- pub type ControlPacket = babel::Tlv (src/src/packet.rs). -/
abbrev ControlPacket := Tlv

/-- ControlPacket::new_hello (src/src/packet.rs): builds the Hello TLV from
the peer's current hello_seqno, then increments the peer's counter; the pair
returned is the TLV together with the mutated peer. -/
def ControlPacket.new_hello (dest_peer : Peer) (interval : Nat) : ControlPacket × Peer :=
  (Tlv.hello (Hello.new_unicast dest_peer.hello_seqno interval),
    dest_peer.increment_hello_seqno)

/-- ControlPacket::new_ihu (src/src/packet.rs): builds the IHU TLV with
Metric::from(0) (the source carries a TODO to set the rx metric), the given
interval, and Some(dest_address). -/
def ControlPacket.new_ihu (interval : Nat) (dest_address : IpAddr) : ControlPacket :=
  Tlv.ihu (Ihu.new 0 interval (some dest_address))

/-- ControlPacket::new_update (src/src/packet.rs). -/
def ControlPacket.new_update (interval : Nat) (seqno : Nat) (metric : Nat) (subnet : Subnet)
    (router_id : PublicKey) : ControlPacket :=
  Tlv.update ⟨interval, seqno, metric, subnet, router_id⟩

/-- The sequence number carried by a TLV when it is a Hello. -/
def Tlv.helloSeqno : Tlv → Option Nat
  | .hello h => some h.seqno
  | _ => none

/-- The metric carried by a TLV when it is an IHU. -/
def Tlv.ihuMetric : Tlv → Option Nat
  | .ihu i => some i.metric
  | _ => none

/-- The interval and address carried by a TLV when it is an IHU. -/
def Tlv.ihuIntervalAddress : Tlv → Option (Nat × Option IpAddr)
  | .ihu i => some (i.interval, i.address)
  | _ => none

/-- C2 (code evaluated at the failing inputs): the IHU built by
ControlPacket::new_ihu always carries metric 0 — Metric::from(0) is
hardcoded behind a TODO — instead of a caller-supplied peer-observed metric;
no observed-metric argument even exists. The interval and the optional
address are carried as claimed. -/
theorem C2_new_ihu_metric_always_zero :
    ∀ (interval : Nat) (dest_address : IpAddr),
      (ControlPacket.new_ihu interval dest_address).ihuMetric = some 0 ∧
      (ControlPacket.new_ihu interval dest_address).ihuIntervalAddress =
        some (interval, some dest_address) := by
  intro interval dest_address
  constructor <;> rfl

/-- C3: every call to ControlPacket::new_hello increments the peer's Hello
sequence counter exactly once, the constructed Hello carries the counter
value read before that increment, and a consecutive Hello to the same peer
carries the (wraparound) successor sequence number. -/
theorem C3_new_hello_seqno (p : Peer) (interval interval' : Nat) :
    (ControlPacket.new_hello p interval).1.helloSeqno = some p.hello_seqno ∧
    (ControlPacket.new_hello p interval).2.hello_seqno = (p.hello_seqno + 1) % 65536 ∧
    (ControlPacket.new_hello ((ControlPacket.new_hello p interval).2) interval').1.helloSeqno =
      some ((p.hello_seqno + 1) % 65536) := by
  refine ⟨rfl, rfl, rfl⟩

/-! ## src/src/api.rs: Metric serialization (reporting layer) -/

/-- A serialized JSON scalar as produced by the serde Serializer calls used
in src/src/api.rs (serialize_str / serialize_u16). -/
inductive Json
  | str (s : String)
  | num (n : Nat)
  deriving DecidableEq

/-- The api::Metric alias used for serialization in the API
(src/src/api.rs): a finite value or the infinite case. -/
inductive Metric
  | Value (v : Nat)
  | Infinite
  deriving DecidableEq

/-- impl Serialize for Metric (src/src/api.rs): the infinite case serializes
as the string literal, a finite case as its plain number. -/
def serializeMetric : Metric → Json
  | .Infinite => .str "infinite"
  | .Value v => .num v

/-- C4: the serialized metric of an infinite metric is the distinct sentinel
string, the serialized metric of any finite metric v is the plain number v,
and no finite value serializes equal to the infinite case. -/
theorem C4_metric_serialization :
    serializeMetric .Infinite = .str "infinite" ∧
    (∀ v : Nat, serializeMetric (.Value v) = .num v) ∧
    (∀ v : Nat, (serializeMetric (.Value v) == serializeMetric .Infinite) = false) := by
  refine ⟨rfl, fun v => rfl, fun v => rfl⟩

/-! ## src/src/api.rs: message endpoints -/

/-- HTTP status codes used by the handlers in src/src/api.rs. -/
inductive StatusCode
  | OK
  | CREATED
  | NO_CONTENT
  | BAD_REQUEST
  | NOT_FOUND
  | REQUEST_TIMEOUT
  | INTERNAL_SERVER_ERROR
  deriving DecidableEq

/-- MessageDestination (src/src/api.rs): either an IP or a public key. -/
inductive MessageDestination
  | Ip (ip : IpAddr)
  | Pk (pk : PublicKey)
  deriving DecidableEq

/-- MessageDestination::ip (src/src/api.rs): a Pk destination resolves to the
IPv6 address derived from the public key, an Ip destination to itself. -/
def MessageDestination.ip : MessageDestination → IpAddr
  | .Ip i => i
  | .Pk pk => .v6 pk.address

/-- MessageSendInfo (src/src/api.rs): destination, optional topic, payload. -/
structure MessageSendInfo where
  dst : MessageDestination
  topic : Option (List Nat)
  payload : List Nat
  deriving DecidableEq

/-- Modelled from the spec: a received application message as held in the
inbound queue (message.rs is not under src/); the fields are the ones the
handlers in src/src/api.rs read (id, src/dst ip and pk, topic, data). -/
structure ReceivedMessage where
  id : Nat
  src_ip : IpAddr
  src_pk : PublicKey
  dst_ip : IpAddr
  dst_pk : PublicKey
  topic : List Nat
  data : List Nat
  deriving DecidableEq

/-- MessageReceiveInfo (src/src/api.rs): the JSON body returned for a
received message; topic is optional and skipped when absent. -/
structure MessageReceiveInfo where
  id : Nat
  src_ip : IpAddr
  src_pk : PublicKey
  dst_ip : IpAddr
  dst_pk : PublicKey
  topic : Option (List Nat)
  payload : List Nat
  deriving DecidableEq

/-- The MessageReceiveInfo record literally built in both get_message
(src/src/api.rs lines 175-189) and the reply branch of push_message
(lines 264-273): every field copied, with the topic reported as absent
exactly when the message's topic is the empty byte string. -/
def mkMessageReceiveInfo (m : ReceivedMessage) : MessageReceiveInfo :=
  { id := m.id, src_ip := m.src_ip, src_pk := m.src_pk, dst_ip := m.dst_ip, dst_pk := m.dst_pk,
    topic := if m.topic.isEmpty then none else some m.topic, payload := m.data }

/-- Modelled from the spec: SubmitError (§4.4, §7); submission rejected
locally when the destination cannot be resolved. -/
inductive SubmitError
  | Unreachable
  deriving DecidableEq

/-- Modelled from the spec: MessageStack::new_message (message.rs is not
under src/). Fails with SubmitError::Unreachable if the destination cannot
be resolved at all (no route and not a known peer identity); this is a
submission-time check, independent of try_duration. On success returns the
message id and, when await_reply is set, a reply subscription (modelled as
the id it correlates on). -/
def new_message (hasRoute knownPeer : IpAddr → Bool) (nextId : Nat) (dst : IpAddr)
    (payload topic : List Nat) (tryDurationSecs : Nat) (awaitReply : Bool) :
    Except SubmitError (Nat × Option Nat) :=
  if !hasRoute dst && !knownPeer dst then .error .Unreachable
  else .ok (nextId, if awaitReply then some nextId else none)

/-- Default amount of time to try and send a message (src/src/api.rs), in
seconds. -/
def DEFAULT_MESSAGE_TRY_DURATION : Nat := 60 * 5

/-- PushMessageQuery (src/src/api.rs): the optional reply_timeout query
parameter. -/
structure PushMessageQuery where
  reply_timeout : Option Nat
  deriving DecidableEq

/-- PushMessageQuery::await_reply (src/src/api.rs). -/
def PushMessageQuery.await_reply (q : PushMessageQuery) : Bool := q.reply_timeout.isSome

/-- PushMessageQuery::timeout (src/src/api.rs). -/
def PushMessageQuery.timeout (q : PushMessageQuery) : Nat := q.reply_timeout.getD 0

/-- The resolution of the reply-waiting select in push_message
(src/src/api.rs lines 260-289): the watch channel fired with a value or with
none, the sender dropped, or the timeout sleep won. -/
inductive ReplyOutcome
  | replied (m : Option ReceivedMessage)
  | senderDropped
  | timedOut
  deriving DecidableEq

/-- PushMessageResponse (src/src/api.rs): either a correlated reply or the
id of the submitted message. -/
inductive PushMessageResponse
  | Reply (m : MessageReceiveInfo)
  | Id (id : Nat)
  deriving DecidableEq

/-- push_message handler (src/src/api.rs): resolves the destination with
MessageDestination::ip, submits via new_message (empty topic when none),
maps any submission error to 400 BAD_REQUEST, returns 201 CREATED with the
id when no reply is awaited, and otherwise resolves per the select on the
reply subscription and the timeout. -/
def push_message (hasRoute knownPeer : IpAddr → Bool) (nextId : Nat) (query : PushMessageQuery)
    (message_info : MessageSendInfo) (replyOutcome : ReplyOutcome) :
    Except StatusCode (StatusCode × PushMessageResponse) :=
  let dst := message_info.dst.ip
  match new_message hasRoute knownPeer nextId dst message_info.payload
      (message_info.topic.getD []) DEFAULT_MESSAGE_TRY_DURATION query.await_reply with
  | .error _ => .error .BAD_REQUEST
  | .ok (id, _sub) =>
    if !query.await_reply then .ok (.CREATED, .Id id)
    else
      match replyOutcome with
      | .replied (some m) => .ok (.OK, .Reply (mkMessageReceiveInfo m))
      | .replied none => .error .INTERNAL_SERVER_ERROR
      | .senderDropped => .error .INTERNAL_SERVER_ERROR
      | .timedOut => .ok (.REQUEST_TIMEOUT, .Id id)

/-- reply_message handler (src/src/api.rs): resolves the destination with
MessageDestination::ip, forwards id, resolved address and payload to
MessageStack::reply_message, and returns 204 NO_CONTENT; the result records
the status and the submission handed to the message stack. -/
def reply_message (id : Nat) (message_info : MessageSendInfo) :
    StatusCode × (Nat × IpAddr × List Nat) :=
  (StatusCode.NO_CONTENT, (id, message_info.dst.ip, message_info.payload))

/-- GetMessageQuery (src/src/api.rs): peek, timeout and topic query
parameters. -/
structure GetMessageQuery where
  peek : Option Bool
  timeout : Option Nat
  topic : Option (List Nat)
  deriving DecidableEq

/-- GetMessageQuery::peek() (src/src/api.rs): did the query indicate we
should peek the message instead of pop? True exactly on Some(true). -/
def GetMessageQuery.isPeek (q : GetMessageQuery) : Bool := q.peek == some true

/-- GetMessageQuery::timeout_secs (src/src/api.rs). -/
def GetMessageQuery.timeout_secs (q : GetMessageQuery) : Nat := q.timeout.getD 0

/-- Modelled from the spec: whether an inbound message matches the optional
topic filter (§4.4); no filter matches everything. -/
def topicMatches (filter : Option (List Nat)) (m : ReceivedMessage) : Bool :=
  match filter with
  | none => true
  | some t => m.topic == t

/-- First message of the inbound queue matching the filter. -/
def findMsg (filter : Option (List Nat)) : List ReceivedMessage → Option ReceivedMessage
  | [] => none
  | m :: rest => if topicMatches filter m then some m else findMsg filter rest

/-- The inbound queue with its first filter-matching message removed. -/
def removeFirstMatch (filter : Option (List Nat)) :
    List ReceivedMessage → List ReceivedMessage
  | [] => []
  | m :: rest => if topicMatches filter m then rest else m :: removeFirstMatch filter rest

/-- Modelled from the spec: MessageStack::message(pop, topic) on the shared
inbound queue (message.rs is not under src/): returns the next matching
message; pop controls whether it is removed from the queue (consumed) or
left for a subsequent peek (§4.4). The new queue state is returned
alongside. -/
def messageOp (pop : Bool) (filter : Option (List Nat)) (q : List ReceivedMessage) :
    Option (ReceivedMessage × List ReceivedMessage) :=
  match findMsg filter q with
  | none => none
  | some m => some (m, if pop then removeFirstMatch filter q else q)

/-- get_message handler (src/src/api.rs): requests a pop exactly when the
peek query parameter is not true, maps the received message through
mkMessageReceiveInfo, and answers 204 NO_CONTENT when the timeout elapses
with no matching message available. -/
def get_message (query : GetMessageQuery) (q : List ReceivedMessage) :
    Except StatusCode (MessageReceiveInfo × List ReceivedMessage) :=
  match messageOp (!query.isPeek) query.topic q with
  | none => .error .NO_CONTENT
  | some (m, q') => .ok (mkMessageReceiveInfo m, q')

/-- Modelled from the spec: the delivery status of a submitted message,
Pending, Delivered or Failed (§4.4). -/
inductive MessageInfo
  | Pending
  | Delivered
  | Failed
  deriving DecidableEq

/-- Modelled from the spec: MessageStack::message_info (message.rs is not
under src/): the point-in-time status of a submitted message, none for
unknown ids; the stack's bookkeeping is modelled as an association list from
message id to status. -/
def message_info (store : List (Nat × MessageInfo)) (id : Nat) : Option MessageInfo :=
  match store with
  | [] => none
  | (k, s) :: rest => if k == id then some s else message_info rest id

/-- message_status handler (src/src/api.rs): maps a none from message_info
to 404 NOT_FOUND and a known status to the JSON body. -/
def message_status (store : List (Nat × MessageInfo)) (id : Nat) :
    Except StatusCode MessageInfo :=
  match message_info store id with
  | none => .error .NOT_FOUND
  | some s => .ok s

/-! ## src/mycelium-ui/src/main.rs: PeerTypeWrapper ordering -/

/-- Modelled from the spec: peer_manager::PeerType (not under src/), the
closed set of peer types Static, LinkLocalDiscovery, Inbound (§3, §9). -/
inductive PeerType
  | Static
  | LinkLocalDiscovery
  | Inbound
  deriving DecidableEq, BEq, Fintype

/-- impl Ord for PeerTypeWrapper (src/mycelium-ui/src/main.rs lines 221-234),
arm for arm. -/
def PeerTypeWrapper.cmp (a b : PeerType) : Ordering :=
  match a, b with
  | .Static, .Static => .eq
  | .Static, _ => .lt
  | .LinkLocalDiscovery, .Static => .gt
  | .LinkLocalDiscovery, .LinkLocalDiscovery => .eq
  | .LinkLocalDiscovery, .Inbound => .lt
  | .Inbound, .Inbound => .eq
  | .Inbound, _ => .gt

/-- impl PartialEq for PeerTypeWrapper (src/mycelium-ui/src/main.rs lines
242-248): structural equality of the wrapped peer types. -/
def PeerTypeWrapper.eqb (a b : PeerType) : Bool := a == b

/-- C8: PeerTypeWrapper::cmp is a total order on the closed set with
Static < LinkLocalDiscovery < Inbound: for every pair it is total, it is
antisymmetric, it is transitive, and it returns Equal exactly when the two
values are equal per the PartialEq instance. -/
theorem C8_peer_type_total_order :
    (∀ a b : PeerType, PeerTypeWrapper.cmp a b = .lt ∨ PeerTypeWrapper.cmp a b = .eq ∨
      PeerTypeWrapper.cmp a b = .gt) ∧
    (∀ a b : PeerType, PeerTypeWrapper.cmp a b = .eq ↔ PeerTypeWrapper.eqb a b = true) ∧
    (∀ a b : PeerType, PeerTypeWrapper.cmp a b = .eq ↔ a = b) ∧
    (∀ a b : PeerType, PeerTypeWrapper.cmp a b = .lt ↔ PeerTypeWrapper.cmp b a = .gt) ∧
    (∀ a b c : PeerType, PeerTypeWrapper.cmp a b = .lt → PeerTypeWrapper.cmp b c = .lt →
      PeerTypeWrapper.cmp a c = .lt) ∧
    PeerTypeWrapper.cmp .Static .LinkLocalDiscovery = .lt ∧
    PeerTypeWrapper.cmp .LinkLocalDiscovery .Inbound = .lt ∧
    PeerTypeWrapper.cmp .Static .Inbound = .lt := by
  refine ⟨by decide, by decide, by decide, by decide, by decide, rfl, rfl, rfl⟩

/-- Witness for C8: transitivity applied across the concrete chain
Static < LinkLocalDiscovery < Inbound. -/
theorem C8_peer_type_total_order_witness :
    PeerTypeWrapper.cmp .Static .Inbound = .lt :=
  C8_peer_type_total_order.2.2.2.2.1 .Static .LinkLocalDiscovery .Inbound (by decide) (by decide)

/-- C5: for a destination that cannot be resolved at submission time (no
route and not a known peer identity), new_message returns
SubmitError::Unreachable immediately — also with try_duration 0 — and the
push_message handler surfaces any new_message error as 400 BAD_REQUEST
without returning a message id. -/
theorem C5_unreachable_rejected (hasRoute knownPeer : IpAddr → Bool) (nextId : Nat)
    (payload topic : List Nat) (tryDurationSecs : Nat) (awaitReply : Bool)
    (query : PushMessageQuery) (info : MessageSendInfo) (replyOutcome : ReplyOutcome)
    (h1 : hasRoute info.dst.ip = false) (h2 : knownPeer info.dst.ip = false) :
    new_message hasRoute knownPeer nextId info.dst.ip payload topic tryDurationSecs awaitReply =
      .error .Unreachable ∧
    new_message hasRoute knownPeer nextId info.dst.ip payload topic 0 awaitReply =
      .error .Unreachable ∧
    push_message hasRoute knownPeer nextId query info replyOutcome = .error .BAD_REQUEST := by
  refine ⟨by simp [new_message, h1, h2], by simp [new_message, h1, h2], ?_⟩
  simp [push_message, new_message, h1, h2]

/-- Witness for C5: a concrete submission to an unroutable, unknown address
is rejected with Unreachable and surfaced as 400. -/
theorem C5_unreachable_rejected_witness :
    new_message (fun _ => false) (fun _ => false) 1
        (MessageDestination.ip (.Ip (.v6 (List.replicate 16 0)))) [1, 2] [] 0 false =
      .error .Unreachable ∧
    push_message (fun _ => false) (fun _ => false) 1 ⟨none⟩
        ⟨.Ip (.v6 (List.replicate 16 0)), none, [1, 2]⟩ .timedOut = .error .BAD_REQUEST := by
  have h := C5_unreachable_rejected (fun _ => false) (fun _ => false) 1 [1, 2] [] 0 false
    ⟨none⟩ ⟨.Ip (.v6 (List.replicate 16 0)), none, [1, 2]⟩ .timedOut rfl rfl
  exact ⟨h.2.1, h.2.2⟩

theorem findMsg_decomp (filter : Option (List Nat)) (q : List ReceivedMessage)
    (m : ReceivedMessage) (h : findMsg filter q = some m) :
    ∃ l r, q = l ++ m :: r ∧ removeFirstMatch filter q = l ++ r ∧
      ∀ x ∈ l, topicMatches filter x = false := by
  induction q with
  | nil => simp [findMsg] at h
  | cons a rest ih =>
    by_cases hm : topicMatches filter a = true
    · simp only [findMsg, hm, if_true, Option.some.injEq] at h
      subst h
      exact ⟨[], rest, by simp, by simp [removeFirstMatch, hm], by simp⟩
    · simp only [findMsg, hm, Bool.false_eq_true, if_false] at h
      obtain ⟨l, r, h1, h2, h3⟩ := ih h
      refine ⟨a :: l, r, by simp [h1], ?_, ?_⟩
      · simp [removeFirstMatch, hm, h2]
      · intro x hx
        rcases List.mem_cons.mp hx with hxa | hxl
        · subst hxa; exact Bool.not_eq_true _ ▸ by simpa using hm
        · exact h3 x hxl

/-- C6: message(pop=true, filter) removes the returned message from the
inbound queue while message(pop=false, filter) leaves it in place, so a peek
followed immediately by a pop returns the same message and the queue
afterwards is the original without that occurrence; and the get_message
handler requests pop exactly when the peek query parameter is not true. -/
theorem C6_message_pop_peek (filter : Option (List Nat)) (q q' : List ReceivedMessage)
    (m : ReceivedMessage) (h : messageOp false filter q = some (m, q')) :
    q' = q ∧
    messageOp true filter q = some (m, removeFirstMatch filter q) ∧
    (∃ l r, q = l ++ m :: r ∧ removeFirstMatch filter q = l ++ r ∧
      ∀ x ∈ l, topicMatches filter x = false) ∧
    (∀ query : GetMessageQuery, (!query.isPeek) = true ↔ ¬ query.peek = some true) := by
  have hf : findMsg filter q = some m ∧ q' = q := by
    cases hx : findMsg filter q with
    | none => simp [messageOp, hx] at h
    | some m0 =>
      simp only [messageOp, hx, Bool.false_eq_true, if_false, Option.some.injEq,
        Prod.mk.injEq] at h
      exact ⟨by rw [h.1], h.2.symm⟩
  obtain ⟨hfind, hq⟩ := hf
  refine ⟨hq, ?_, findMsg_decomp filter q m hfind, ?_⟩
  · simp [messageOp, hfind]
  · intro query
    cases hp : query.peek with
    | none => simp [GetMessageQuery.isPeek, hp]
    | some b => cases b <;> simp [GetMessageQuery.isPeek, hp]

/-- Witness for C6: on a concrete two-element queue, a peek returns the head
and leaves the queue, and the subsequent pop returns the same head and drops
it. -/
theorem C6_message_pop_peek_witness :
    messageOp true none
        [⟨7, .v6 [], ⟨[]⟩, .v6 [], ⟨[]⟩, [], [1]⟩, ⟨8, .v6 [], ⟨[]⟩, .v6 [], ⟨[]⟩, [], [2]⟩] =
      some (⟨7, .v6 [], ⟨[]⟩, .v6 [], ⟨[]⟩, [], [1]⟩,
        [⟨8, .v6 [], ⟨[]⟩, .v6 [], ⟨[]⟩, [], [2]⟩]) := by
  have h := C6_message_pop_peek none
    [⟨7, .v6 [], ⟨[]⟩, .v6 [], ⟨[]⟩, [], [1]⟩, ⟨8, .v6 [], ⟨[]⟩, .v6 [], ⟨[]⟩, [], [2]⟩]
    [⟨7, .v6 [], ⟨[]⟩, .v6 [], ⟨[]⟩, [], [1]⟩, ⟨8, .v6 [], ⟨[]⟩, .v6 [], ⟨[]⟩, [], [2]⟩]
    ⟨7, .v6 [], ⟨[]⟩, .v6 [], ⟨[]⟩, [], [1]⟩ (by decide)
  exact h.2.1

/-- C7: for every id never returned by a submission the stack reports none
and the message_status handler answers 404 NOT_FOUND; for a known id it
returns the point-in-time delivery status. -/
theorem C7_message_status_unknown (store : List (Nat × MessageInfo)) (id : Nat) :
    ((∀ p ∈ store, p.1 ≠ id) →
      message_info store id = none ∧ message_status store id = .error .NOT_FOUND) ∧
    (∀ s : MessageInfo, message_info store id = some s → message_status store id = .ok s) := by
  constructor
  · intro hun
    have hnone : message_info store id = none := by
      induction store with
      | nil => rfl
      | cons p rest ih =>
        have hp : p.1 ≠ id := hun p (List.mem_cons_self p rest)
        cases p with
        | mk k s =>
          simp only [message_info, beq_iff_eq]
          rw [if_neg hp]
          exact ih (fun x hx => hun x (List.mem_cons_of_mem _ hx))
    exact ⟨hnone, by simp [message_status, hnone]⟩
  · intro s hs
    simp [message_status, hs]

/-- Witness for C7: a concrete store that knows id 1 but not id 2. -/
theorem C7_message_status_unknown_witness :
    (message_info [(1, MessageInfo.Pending)] 2 = none ∧
      message_status [(1, MessageInfo.Pending)] 2 = .error .NOT_FOUND) ∧
    message_status [(1, MessageInfo.Pending)] 1 = .ok MessageInfo.Pending :=
  ⟨(C7_message_status_unknown [(1, MessageInfo.Pending)] 2).1 (by decide),
    (C7_message_status_unknown [(1, MessageInfo.Pending)] 1).2 MessageInfo.Pending (by decide)⟩

/-- C9: MessageDestination::ip resolves a Pk destination to the IPv6 address
derived from that public key and an Ip destination to that address
unchanged, so push_message and reply_message always submit to a concrete IP
address and submitting by public key is equivalent to submitting by its
derived address. -/
theorem C9_destination_ip_resolution :
    (∀ a : IpAddr, (MessageDestination.Ip a).ip = a) ∧
    (∀ pk : PublicKey, (MessageDestination.Pk pk).ip = .v6 pk.address) ∧
    (∀ (hasRoute knownPeer : IpAddr → Bool) (nextId : Nat) (query : PushMessageQuery)
      (topic : Option (List Nat)) (payload : List Nat) (pk : PublicKey)
      (replyOutcome : ReplyOutcome),
      push_message hasRoute knownPeer nextId query ⟨.Pk pk, topic, payload⟩ replyOutcome =
        push_message hasRoute knownPeer nextId query
          ⟨.Ip (.v6 pk.address), topic, payload⟩ replyOutcome) ∧
    (∀ (id : Nat) (topic : Option (List Nat)) (payload : List Nat) (pk : PublicKey),
      reply_message id ⟨.Pk pk, topic, payload⟩ =
        reply_message id ⟨.Ip (.v6 pk.address), topic, payload⟩) := by
  refine ⟨fun a => rfl, fun pk => rfl, fun hasRoute knownPeer nextId query topic payload pk ro =>
    rfl, fun id topic payload pk => rfl⟩

/-- C10: a message whose topic is the empty byte string is reported over the
HTTP API with the topic field absent, and only then, so an empty topic is
indistinguishable from no topic at the API boundary; mkMessageReceiveInfo is
the response record built by both get_message and the reply branch of
push_message. -/
theorem C10_empty_topic_absent :
    (∀ m : ReceivedMessage, (mkMessageReceiveInfo m).topic = none ↔ m.topic = []) ∧
    (∀ (query : GetMessageQuery) (q q' : List ReceivedMessage) (m : ReceivedMessage),
      messageOp (!query.isPeek) query.topic q = some (m, q') →
        get_message query q = .ok (mkMessageReceiveInfo m, q')) := by
  constructor
  · intro m
    cases hm : m.topic with
    | nil => simp [mkMessageReceiveInfo, hm]
    | cons a rest => simp [mkMessageReceiveInfo, hm]
  · intro query q q' m h
    simp [get_message, h]

/-- Witness for C10: on a concrete queue whose head carries an empty topic,
get_message returns the head with the topic field absent. -/
theorem C10_empty_topic_absent_witness :
    get_message ⟨none, none, none⟩ [⟨7, .v6 [], ⟨[]⟩, .v6 [], ⟨[]⟩, [], [1]⟩] =
      .ok (mkMessageReceiveInfo ⟨7, .v6 [], ⟨[]⟩, .v6 [], ⟨[]⟩, [], [1]⟩, []) ∧
    (mkMessageReceiveInfo ⟨7, .v6 [], ⟨[]⟩, .v6 [], ⟨[]⟩, [], [1]⟩).topic = none :=
  ⟨C10_empty_topic_absent.2 ⟨none, none, none⟩ [⟨7, .v6 [], ⟨[]⟩, .v6 [], ⟨[]⟩, [], [1]⟩] []
      ⟨7, .v6 [], ⟨[]⟩, .v6 [], ⟨[]⟩, [], [1]⟩ (by decide),
    (C10_empty_topic_absent.1 ⟨7, .v6 [], ⟨[]⟩, .v6 [], ⟨[]⟩, [], [1]⟩).mpr rfl⟩
